import Mathlib

/-!
Shallow embedding of src/extract_city_weather.py: the weather ingestion
pipeline (fetch, clean, store), the database bootstrap step and the main
startup sequence, together with theorems settling the specification
claims about them.

Conventions of the embedding:
  - Python floats are modelled as rationals.
  - Timestamps are natural numbers (an abstract clock value).
  - A Python dict that is either empty or carries the weather fields is
    modelled as an Option of a record.
  - A Python function that may raise is modelled with Except, where the
    error value names the exception class that escapes the function.
-/

/-- Exception classes that can escape the modelled Python functions. -/
inductive PyExc where
  | keyError
  | indexError
  | unboundLocalError
  deriving DecidableEq, Repr

/-- The weather dict built by get_weather_data (keys city,
temperature (degC), humidity (pct), wind_speed (m per s), weather,
timestamp).  Directly after the fetch the temperature field still holds
the Kelvin value from the API; clean_weather_data rewrites it. -/
structure WeatherInfo where
  city : String
  temperature : ℚ
  humidity : ℚ
  wind_speed : ℚ
  weather : String
  timestamp : ℕ
  deriving DecidableEq, Repr

/-- The JSON body of a 2xx API response, restricted to the keys the
source reads: main.temp, main.humidity, wind.speed and
weather[i].description.  A missing key is a none; the weather key is the
list of description strings. -/
structure ApiBody where
  mainTemp : Option ℚ
  mainHumidity : Option ℚ
  windSpeed : Option ℚ
  weatherDescriptions : List String
  deriving DecidableEq, Repr

/-- Outcome of the HTTP GET issued by get_weather_data.  transportError
covers every requests-level failure (connection error, timeout, invalid
JSON); httpError is a final non-2xx status, on which raise_for_status
raises an HTTPError (a RequestException). -/
inductive ApiResponse where
  | transportError
  | httpError (status : ℕ)
  | success (body : ApiBody)
  deriving DecidableEq, Repr

/-- Log lines relevant to the claims, tagged by the logging call site. -/
inductive LogMsg where
  | fetchError
  | noDataToClean
  | noDataToStore
  | storeError
  | dbCreated
  | dbAlreadyExists
  | dbCreateError
  | dbConnectError
  deriving DecidableEq, Repr

/-- WeatherDataCollector.get_weather_data.  The try block performs the
request, raise_for_status, response.json() and the dict construction; the
except clause catches exactly requests.exceptions.RequestException,
logging the error and returning the empty dict.  A KeyError or
IndexError raised while the dict literal reads data fields is not a
RequestException and escapes.  now is the value datetime.now() yields
inside the dict literal. -/
def get_weather_data (city : String) (now : ℕ) (resp : ApiResponse) :
    Except PyExc (Option WeatherInfo) × List LogMsg :=
  match resp with
  | .transportError => (.ok none, [.fetchError])
  | .httpError _ => (.ok none, [.fetchError])
  | .success body =>
      match body.mainTemp with
      | none => (.error .keyError, [])
      | some t =>
          match body.mainHumidity with
          | none => (.error .keyError, [])
          | some h =>
              match body.windSpeed with
              | none => (.error .keyError, [])
              | some w =>
                  match body.weatherDescriptions with
                  | [] => (.error .indexError, [])
                  | d :: _ =>
                      (.ok (some ⟨city, t, h, w, d, now⟩), [])

/-- Round a rational to the nearest integer, ties to even: the rounding
of numpy (and pandas Series.round), which clean_weather_data uses. -/
def roundHalfEven (q : ℚ) : ℤ :=
  let n : ℤ := q.num
  let d : ℤ := (q.den : ℤ)
  let f : ℤ := n.fdiv d
  let r : ℤ := n - f * d
  if 2 * r < d then f
  else if d < 2 * r then f + 1
  else if f % 2 = 0 then f else f + 1

/-- Round to 2 decimal places, as Series.round(2) does. -/
def round2 (q : ℚ) : ℚ := (roundHalfEven (q * 100) : ℚ) / 100

/-- WeatherDataCollector.clean_weather_data.  An empty dict yields the
empty DataFrame; otherwise the one-row DataFrame has its temperature
column replaced by the Kelvin-to-Celsius conversion rounded to two
decimals, every other column unchanged. -/
def clean_weather_data (data : Option WeatherInfo) :
    Option WeatherInfo × List LogMsg :=
  match data with
  | none => (none, [.noDataToClean])
  | some w => (some { w with temperature := round2 (w.temperature - 273.15) }, [])

/-- WeatherDataCollector.store_weather_data.  The database is the list of
rows of the weather table; dbOk says whether the engine connection and
the to_sql append succeed.  An empty DataFrame is not written; a write
error is caught by the blanket except and only logged. -/
def store_weather_data (db : List WeatherInfo) (dbOk : Bool)
    (df : Option WeatherInfo) : List WeatherInfo × List LogMsg :=
  match df with
  | none => (db, [.noDataToStore])
  | some r => if dbOk then (db ++ [r], []) else (db, [.storeError])

/-- WeatherDataCollector.run: fetch, then clean, then store, strictly in
sequence; an exception escaping a stage aborts the cycle and escapes run
itself. -/
def run (city : String) (now : ℕ) (resp : ApiResponse)
    (db : List WeatherInfo) (dbOk : Bool) :
    Except PyExc (List WeatherInfo) :=
  match get_weather_data city now resp with
  | (.error e, _) => .error e
  | (.ok raw, _) =>
      (store_weather_data db dbOk (clean_weather_data raw).1).1 |> .ok

/-- WeatherScheduler.start: while True, schedule.run_pending() then
sleep(1).  The schedule library does not catch exceptions raised by the
job, so an exception escaping collector.run escapes run_pending and
terminates the while loop.  This predicate says whether the loop survives
the cycle with the given inputs. -/
def scheduler_loop_survives (city : String) (now : ℕ) (resp : ApiResponse)
    (db : List WeatherInfo) (dbOk : Bool) : Bool :=
  match run city now resp db dbOk with
  | .ok _ => true
  | .error _ => false

/-- Modelled from the spec (section 4.2 Reading Normalizer): a normalize
step that, besides the Kelvin-to-Celsius conversion, stamps the current
timestamp onto the produced reading.  This follows the spec words
"stamps the current timestamp"; it is the comparison point for the claim
that normalization assigns the capture timestamp, which the source
assigns in get_weather_data instead. -/
def clean_weather_data_specStamped (now : ℕ) (data : Option WeatherInfo) :
    Option WeatherInfo :=
  match data with
  | none => none
  | some w =>
      some { w with temperature := round2 (w.temperature - 273.15),
                    timestamp := now }

/-- What the inner try of create_database_if_not_exists encounters once a
connection to the postgres maintenance database is established. -/
inductive CreateOutcome where
  | created
  | duplicateDatabase
  | otherPgError
  deriving DecidableEq, Repr

/-- Outcome of the psycopg2.connect call in
create_database_if_not_exists. -/
inductive ConnectOutcome where
  | connectFail
  | connected (c : CreateOutcome)
  deriving DecidableEq, Repr

/-- Python try/finally: the finally suite runs after the body; an
exception raised in the finally suite replaces whatever the body was
about to return or raise. -/
def pyFinally {α : Type} (body : Except PyExc α) (fin : Except PyExc Unit) :
    Except PyExc α :=
  match fin with
  | .error e => .error e
  | .ok _ => body

/-- create_database_if_not_exists.  The outer try binds conn on a
successful connect; the inner try issues CREATE DATABASE, catching
DuplicateDatabase and other psycopg2 errors; the outer except catches a
failed connect and logs it.  The finally suite evaluates `if conn`: when
connect raised, the local conn was never assigned, so this lookup raises
UnboundLocalError, which escapes the function. -/
def create_database_if_not_exists (outcome : ConnectOutcome) :
    Except PyExc Unit × List LogMsg :=
  let conn : Option Unit :=
    match outcome with
    | .connectFail => none
    | .connected _ => some ()
  let bodyResult : Except PyExc Unit :=
    match outcome with
    | .connectFail => .ok ()
    | .connected _ => .ok ()
  let logs : List LogMsg :=
    match outcome with
    | .connectFail => [.dbConnectError]
    | .connected .created => [.dbCreated]
    | .connected .duplicateDatabase => [.dbAlreadyExists]
    | .connected .otherPgError => [.dbCreateError]
  let finResult : Except PyExc Unit :=
    match conn with
    | none => .error .unboundLocalError
    | some _ => .ok ()
  (pyFinally bodyResult finResult, logs)

/-- The top-level statements of the script (the main guard), in program
order. -/
inductive MainStep where
  | loadConfig
  | createDatabaseIfNotExists
  | startPostgresqlService
  | initCollector
  | scheduleJob
  | startSchedulerLoop
  deriving DecidableEq, Repr

/-- The main guard of the script: load config.json, call
create_database_if_not_exists, call start_postgresql, build the
collector, schedule the job, start the scheduler loop. -/
def main_sequence : List MainStep :=
  [.loadConfig, .createDatabaseIfNotExists, .startPostgresqlService,
   .initCollector, .scheduleJob, .startSchedulerLoop]

/-- A 2xx response body holds every field the fetch reads: main.temp,
main.humidity, wind.speed and a nonempty weather list. -/
def wellFormedBody (b : ApiBody) : Bool :=
  b.mainTemp.isSome && (b.mainHumidity.isSome &&
    (b.windSpeed.isSome && !b.weatherDescriptions.isEmpty))

/-- Responses on which every exception raised inside get_weather_data is
one the except clause catches: transport failures and non-2xx statuses
raise RequestException, and a well-formed 2xx body raises nothing. -/
def handledResponse : ApiResponse → Bool
  | .transportError => true
  | .httpError _ => true
  | .success b => wellFormedBody b

/-- C1: for every non-empty RawReading, normalize produces a reading
whose temperature is round(temperature_K - 273.15, 2) and whose city,
humidity, wind speed, description and timestamp are those of the
input. -/
theorem C1_normalize_converts_and_passes_through (w : WeatherInfo) :
    (clean_weather_data (some w)).1 =
      some ⟨w.city, round2 (w.temperature - 273.15), w.humidity,
            w.wind_speed, w.weather, w.timestamp⟩ := rfl

/-- C2 counterexample: a 2xx response whose body lacks the main key
raises a KeyError inside get_weather_data; the except clause catches
only RequestException, so the error escapes run and run_pending, and the
while True loop of WeatherScheduler.start terminates.  So not every
error raised inside a pipeline stage leaves the Scheduler Loop alive. -/
theorem C2_counterexample :
    scheduler_loop_survives "London" 0
      (.success ⟨none, some 50, some 3.5, ["clear sky"]⟩) [] true = false := rfl

/-- C2 amended: every error belonging to a handled class - transport
failures and non-2xx statuses in fetch (RequestException), any storage
failure in store - is caught at its stage boundary, the cycle produces
nothing extra, and the loop survives; only an exception outside those
handlers (a missing field of a 2xx body) can terminate the loop. -/
theorem C2_handled_errors_never_terminate_loop (city : String) (now : ℕ)
    (resp : ApiResponse) (db : List WeatherInfo) (dbOk : Bool)
    (h : handledResponse resp = true) :
    scheduler_loop_survives city now resp db dbOk = true := by
  cases resp with
  | transportError => rfl
  | httpError s => rfl
  | success b =>
      rcases b with ⟨mt, mh, ws, wd⟩
      cases mt with
      | none => simp [handledResponse, wellFormedBody] at h
      | some t =>
          cases mh with
          | none => simp [handledResponse, wellFormedBody] at h
          | some hu =>
              cases ws with
              | none => simp [handledResponse, wellFormedBody] at h
              | some w =>
                  cases wd with
                  | nil => simp [handledResponse, wellFormedBody] at h
                  | cons d ds => rfl

/-- C2 witness: a concrete handled cycle (a transport failure with an
empty table and a working database) leaves the loop alive. -/
theorem C2_handled_errors_witness :
    handledResponse .transportError = true ∧
      scheduler_loop_survives "London" 0 .transportError [] true = true :=
  ⟨rfl, C2_handled_errors_never_terminate_loop "London" 0 .transportError [] true rfl⟩

/-- C3: normalize of the empty reading is empty, store of the empty
result writes nothing, and a failed fetch (transport failure or non-2xx
status) leaves the weather table unchanged for that cycle. -/
theorem C3_empty_path_writes_nothing :
    (clean_weather_data none).1 = none ∧
    (∀ db dbOk, (store_weather_data db dbOk none).1 = db) ∧
    (∀ city now db dbOk, run city now .transportError db dbOk = .ok db) ∧
    (∀ city now s db dbOk, run city now (.httpError s) db dbOk = .ok db) :=
  ⟨rfl, fun _ _ => rfl, fun _ _ _ _ => rfl, fun _ _ _ _ _ => rfl⟩

/-- C4: on a transport failure and on any non-2xx status,
get_weather_data logs the error and returns the empty dict, and no
exception escapes to the caller. -/
theorem C4_fetch_absorbs_transport_and_http (city : String) (now s : ℕ) :
    get_weather_data city now .transportError = (.ok none, [.fetchError]) ∧
    get_weather_data city now (.httpError s) = (.ok none, [.fetchError]) :=
  ⟨rfl, rfl⟩

/-- C5 counterexample: clean_weather_data does not stamp the current
time.  On a reading fetched at clock value 5 and normalized while the
clock reads 7, the source normalizer keeps timestamp 5 while a
normalizer that stamped the current timestamp, as the spec words say,
would emit 7. -/
theorem C5_counterexample :
    Option.map WeatherInfo.timestamp
        (clean_weather_data (some ⟨"London", 300, 50, 3.5, "clear sky", 5⟩)).1 ≠
      Option.map WeatherInfo.timestamp
        (clean_weather_data_specStamped 7
          (some ⟨"London", 300, 50, 3.5, "clear sky", 5⟩)) := by
  simp [clean_weather_data, clean_weather_data_specStamped]

/-- C5 amended: the capture timestamp is assigned during the fetch -
get_weather_data writes datetime.now() into the dict it builds - and
normalization passes the timestamp, together with every field other than
temperature, through unchanged. -/
theorem C5_fetch_stamps_normalize_passes_through (city : String) (now : ℕ)
    (t hu ws : ℚ) (d : String) (ds : List String) (w : WeatherInfo) :
    (get_weather_data city now (.success ⟨some t, some hu, some ws, d :: ds⟩)).1 =
      .ok (some ⟨city, t, hu, ws, d, now⟩) ∧
    (clean_weather_data (some w)).1 =
      some ⟨w.city, round2 (w.temperature - 273.15), w.humidity,
            w.wind_speed, w.weather, w.timestamp⟩ :=
  ⟨rfl, rfl⟩

set_option maxRecDepth 4000 in
/-- C6: with city London and a 2xx body main.temp 300.00,
main.humidity 50, wind.speed 3.5, weather description clear sky, one
cycle starting from an empty table appends exactly the row London,
26.85 degrees Celsius, humidity 50, wind speed 3.5, clear sky. -/
theorem C6_end_to_end_cycle (now : ℕ) :
    run "London" now (.success ⟨some 300, some 50, some 3.5, ["clear sky"]⟩)
        [] true =
      .ok [⟨"London", 26.85, 50, 3.5, "clear sky", now⟩] := by
  have hr : round2 ((300 : ℚ) - 273.15) = 26.85 := by with_unfolding_all decide
  simp [run, get_weather_data, clean_weather_data, store_weather_data, hr]

/-- C7: running create_database_if_not_exists when the target database
already exists hits the DuplicateDatabase handler, logs the already
exists outcome, and the function returns normally. -/
theorem C7_duplicate_database_is_benign :
    create_database_if_not_exists (.connected .duplicateDatabase) =
      (.ok (), [.dbAlreadyExists]) := rfl

/-- C8: when the psycopg2.connect call fails, the except clause logs the
connection error, but the finally suite then evaluates the never
assigned local conn and raises UnboundLocalError, which escapes
create_database_if_not_exists instead of the step returning normally. -/
theorem C8_connect_failure_raises_from_finally :
    create_database_if_not_exists .connectFail =
      (.error .unboundLocalError, [.dbConnectError]) := rfl

/-- C9 counterexample: in the main guard, the call to start_postgresql
does not precede the call to create_database_if_not_exists; database
creation is attempted first. -/
theorem C9_counterexample :
    ¬ (main_sequence.indexOf .startPostgresqlService <
        main_sequence.indexOf .createDatabaseIfNotExists) := by decide

/-- C9 amended: at process start the bootstrapper attempts database
creation first and ensures the database server is running only
afterwards; the server-start step does still precede collector
construction, job scheduling and the scheduler loop. -/
theorem C9_create_database_precedes_server_start :
    main_sequence.indexOf .createDatabaseIfNotExists <
        main_sequence.indexOf .startPostgresqlService ∧
      main_sequence.indexOf .startPostgresqlService <
        main_sequence.indexOf .initCollector ∧
      main_sequence.indexOf .startPostgresqlService <
        main_sequence.indexOf .scheduleJob ∧
      main_sequence.indexOf .startPostgresqlService <
        main_sequence.indexOf .startSchedulerLoop := by decide

/-- C10: normalization is deterministic - equal inputs give equal
outputs, the embedding of clean_weather_data reads no clock - and the
timestamp of the output is exactly the timestamp carried by the
input. -/
theorem C10_normalize_deterministic (d1 d2 : Option WeatherInfo)
    (h : d1 = d2) :
    clean_weather_data d1 = clean_weather_data d2 ∧
      Option.map WeatherInfo.timestamp (clean_weather_data d1).1 =
        Option.map WeatherInfo.timestamp d1 := by
  subst h
  refine ⟨rfl, ?_⟩
  cases d1 with
  | none => rfl
  | some w => rfl

/-- C10 witness: determinism and timestamp preservation at a concrete
reading. -/
theorem C10_normalize_deterministic_witness :
    clean_weather_data (some ⟨"London", 300, 50, 3.5, "clear sky", 5⟩) =
        clean_weather_data (some ⟨"London", 300, 50, 3.5, "clear sky", 5⟩) ∧
      Option.map WeatherInfo.timestamp
          (clean_weather_data (some ⟨"London", 300, 50, 3.5, "clear sky", 5⟩)).1 =
        Option.map WeatherInfo.timestamp
          (some ⟨"London", 300, 50, 3.5, "clear sky", 5⟩) :=
  C10_normalize_deterministic
    (some ⟨"London", 300, 50, 3.5, "clear sky", 5⟩)
    (some ⟨"London", 300, 50, 3.5, "clear sky", 5⟩) rfl
